import Mathlib

/-!
Verification of the projection engine of `finance_app.py` (IFRS Financial
Statements Generator).  The numeric model uses exact rationals (ℚ) in place
of Python floats; all recurrences, field names and orderings follow the
source line by line.
-/

set_option autoImplicit false
set_option maxRecDepth 100000

namespace FinanceApp

/-! ## Asset parsing (finance_app.py lines 196-203)

Each line of the asset text area is split on commas, the parts stripped,
and a line with exactly three parts is kept when `float(parts[1])` and
`int(parts[2])` both succeed; otherwise the line is silently dropped.
`pyFloat?` models Python's `float` on the decimal literals relevant here
(optional sign, digits, optional fractional part); `pyInt?` models
Python's `int` (optional sign, digits). -/

/-- Magnitude of a decimal literal: digits with an optional fractional part. -/
def pyFloatMag? (s : String) : Option ℚ :=
  match s.splitOn "." with
  | [ip] => (ip.toNat?).map (fun n => (n : ℚ))
  | [ip, fp] =>
    match ip.toNat?, fp.toNat? with
    | some n, some f => some ((n : ℚ) + (f : ℚ) / (10 : ℚ) ^ fp.length)
    | _, _ => none
  | _ => none

/-- Model of Python `float` on decimal literals (optional sign). -/
def pyFloat? (s : String) : Option ℚ :=
  if s.startsWith "-" then (pyFloatMag? (s.drop 1)).map Neg.neg
  else if s.startsWith "+" then pyFloatMag? (s.drop 1)
  else pyFloatMag? s

/-- Model of Python `int` on decimal literals. -/
def pyInt? (s : String) : Option ℤ :=
  s.toInt?

/-- One parsed asset: (name, capitalized value, useful life in years),
mirroring the tuple `(parts[0], float(parts[1]), int(parts[2]))`. -/
abbrev Asset : Type := String × ℚ × ℤ

/-- Parse one line of the assets text area (lines 197-203): keep the line
iff it splits into exactly three comma-separated parts whose second and
third parts parse as a float and an int.  No check on the sign of the
life is performed, mirroring the source. -/
def parseAssetLine (line : String) : Option Asset :=
  match (line.splitOn ",").map String.trim with
  | [name, v, l] =>
    match pyFloat? v, pyInt? l with
    | some val, some life => some (name, val, life)
    | _, _ => none
  | _ => none

/-- Parse the whole assets text area: split on newlines, keep the lines
that parse (`assets_list` in the source). -/
def parseAssets (text : String) : List Asset :=
  (text.splitOn "\n").filterMap parseAssetLine

/-! ## Assumption set (sidebar inputs, lines 162-206) -/

/-- The validated input snapshot: every sidebar value the calculation
section reads.  Growth rates and the tax rate are stored already divided
by 100, as in the source. -/
structure AssumptionSet where
  years : Nat
  decimals : Nat
  opening_cash : ℚ
  opening_ar : ℚ
  opening_inventory : ℚ
  opening_ppe : ℚ
  opening_ncl : ℚ
  opening_cl : ℚ
  opening_equity : ℚ
  opening_retained : ℚ
  units : ℚ
  price_per_unit : ℚ
  unit_growth : ℚ
  price_growth : ℚ
  variable_cost_per_unit : ℚ
  fixed_costs : ℚ
  tax_rate : ℚ
  interest : ℚ
  capex_input : ℚ
  num_employees : ℚ
  avg_salary : ℚ
  salary_growth : ℚ
  assets_list : List Asset
  deriving DecidableEq

/-! ## Income statement pass (lines 211-232) -/

/-- One row of the income-statement DataFrame `df` (year labels are kept
as the year number rather than the string "Year n"). -/
structure YearRecord where
  year : Nat
  sales : ℚ
  gross_profit : ℚ
  fixed_costs : ℚ
  manpower : ℚ
  depreciation : ℚ
  ebit : ℚ
  interest : ℚ
  taxes : ℚ
  net_income : ℚ
  units : ℚ
  price_per_unit : ℚ
  capex_input : ℚ
  deriving DecidableEq, Inhabited

/-- The annual depreciation charge computed inside the loop body
(line 218): `sum((val / life) for _, val, life in assets_list) if
assets_list else 0`. -/
def depreciationCharge (assets_list : List Asset) : ℚ :=
  if assets_list = [] then 0
  else (assets_list.map (fun a => a.2.1 / (a.2.2 : ℚ))).sum

/-- The income loop (lines 213-228).  The loop-invariant sidebar values are
passed explicitly; `n` counts the remaining years and `year`, `u`, `p`,
`salary` are the loop state. -/
def incomeRowsFrom (variable_cost_per_unit fixed_costs tax_rate interest
    capex_input num_employees unit_growth price_growth salary_growth : ℚ)
    (assets_list : List Asset) :
    Nat → Nat → ℚ → ℚ → ℚ → List YearRecord
  | 0, _, _, _, _ => []
  | n + 1, year, u, p, salary =>
    let sales := u * p
    let cogs := u * variable_cost_per_unit
    let gross_profit := sales - cogs
    let manpower_cost := num_employees * salary
    let depreciation := depreciationCharge assets_list
    let opex := fixed_costs + manpower_cost + depreciation
    let ebit := gross_profit - opex
    let ebt := ebit - interest
    let taxes := if ebt > 0 then ebt * tax_rate else 0
    let net_income := ebt - taxes
    { year := year, sales := sales, gross_profit := gross_profit,
      fixed_costs := fixed_costs, manpower := manpower_cost,
      depreciation := depreciation, ebit := ebit, interest := interest,
      taxes := taxes, net_income := net_income, units := u,
      price_per_unit := p, capex_input := capex_input } ::
    incomeRowsFrom variable_cost_per_unit fixed_costs tax_rate interest
      capex_input num_employees unit_growth price_growth salary_growth
      assets_list n (year + 1)
      (u * (1 + unit_growth)) (p * (1 + price_growth))
      (salary * (1 + salary_growth))

/-- The income-statement rows `df`, years 1..horizon. -/
def incomeRows (a : AssumptionSet) : List YearRecord :=
  incomeRowsFrom a.variable_cost_per_unit a.fixed_costs a.tax_rate
    a.interest a.capex_input a.num_employees a.unit_growth a.price_growth
    a.salary_growth a.assets_list a.years 1 a.units a.price_per_unit
    a.avg_salary

/-! ## Cash flow pass (lines 235-264)

The loop also binds `ncl_prev`, `sc_prev` and `cl_prev = opening_cl`
(line 239); `cl_prev` is never read afterwards, `d_ncl` and `d_sc` are the
literal constant 0, so only the five pieces of state below are threaded. -/

/-- One row of the cash-flow DataFrame `cf_numeric`.  Fields named after
the dict keys of line 255-259; `delta_ar`, `delta_inv`, `capex` and
`interest_paid` store the negated values, exactly as the source does. -/
structure CFRecord where
  year : Nat
  net_income : ℚ
  depreciation : ℚ
  delta_ar : ℚ
  delta_inv : ℚ
  delta_ap : ℚ
  net_cf_ops : ℚ
  capex : ℚ
  net_cf_inv : ℚ
  change_ncl : ℚ
  change_sc : ℚ
  interest_paid : ℚ
  net_cf_fin : ℚ
  net_change_cash : ℚ
  closing_cash : ℚ
  deriving DecidableEq

/-- The cash-flow loop (lines 241-262), iterating over the income rows
with state (ar_prev, inv_prev, ppe_prev, cash_prev, retained_prev). -/
def cfRowsFrom : List YearRecord → ℚ → ℚ → ℚ → ℚ → ℚ → List CFRecord
  | [], _, _, _, _, _ => []
  | row :: rest, ar_prev, inv_prev, ppe_prev, cash_prev, retained_prev =>
    let ar := row.sales * (0.20 : ℚ)
    let inv := row.sales * (0.10 : ℚ)
    let d_ar := ar - ar_prev
    let d_inv := inv - inv_prev
    let d_ap : ℚ := 0
    let capex := row.capex_input
    let ppe_curr := ppe_prev + capex - row.depreciation
    let d_ncl : ℚ := 0
    let d_sc : ℚ := 0
    let cf_ops := row.net_income + row.depreciation - d_ar - d_inv + d_ap
    let cf_inv := -capex
    let interest_paid := row.interest
    let cf_fin := d_ncl + d_sc - interest_paid
    let net_cf := cf_ops + cf_inv + cf_fin
    let closing_cash := cash_prev + net_cf
    { year := row.year, net_income := row.net_income,
      depreciation := row.depreciation, delta_ar := -d_ar,
      delta_inv := -d_inv, delta_ap := d_ap, net_cf_ops := cf_ops,
      capex := -capex, net_cf_inv := cf_inv, change_ncl := d_ncl,
      change_sc := d_sc, interest_paid := -interest_paid,
      net_cf_fin := cf_fin, net_change_cash := net_cf,
      closing_cash := closing_cash } ::
    cfRowsFrom rest ar inv ppe_curr closing_cash
      (retained_prev + row.net_income)

/-- The cash-flow rows `cf_numeric`, seeded from the opening balances. -/
def cfRows (a : AssumptionSet) : List CFRecord :=
  cfRowsFrom (incomeRows a) a.opening_ar a.opening_inventory a.opening_ppe
    a.opening_cash a.opening_retained

/-- The list `closing_cash_list` accumulated alongside `cf_rows`
(lines 236, 260). -/
def closing_cash_list (a : AssumptionSet) : List ℚ :=
  (cfRows a).map CFRecord.closing_cash

/-! ## Balance sheet pass (lines 268-313) -/

/-- One row of the balance-sheet DataFrame `bs_numeric` (dict of
lines 296-310). -/
structure BSRecord where
  year : Nat
  ppe : ℚ
  cash : ℚ
  ar : ℚ
  inv : ℚ
  total_current_assets : ℚ
  total_assets : ℚ
  share_capital : ℚ
  retained_earnings : ℚ
  total_equity : ℚ
  ncl : ℚ
  cl : ℚ
  total_liab_equity : ℚ
  deriving DecidableEq, Inhabited

/-- One iteration of the balance-sheet loop body (lines 272-310):
`rc` pairs the income row with `closing_cash_list[i]`. -/
def bsStep (opening_equity opening_ncl : ℚ) (rc : YearRecord × ℚ)
    (ppe_prev retained_prev : ℚ) : BSRecord :=
  let row := rc.1
  let ar := row.sales * (0.20 : ℚ)
  let inv := row.sales * (0.10 : ℚ)
  let ppe := ppe_prev + row.capex_input - row.depreciation
  let retained := retained_prev + row.net_income
  let share_capital := opening_equity
  let total_equity := share_capital + retained
  let ncl := opening_ncl
  let cash := rc.2
  let total_current_assets := cash + ar + inv
  let total_assets := total_current_assets + ppe
  let cl := total_assets - (ncl + total_equity)
  let total_liab_equity := ncl + cl + total_equity
  { year := row.year, ppe := ppe, cash := cash, ar := ar, inv := inv,
    total_current_assets := total_current_assets,
    total_assets := total_assets, share_capital := share_capital,
    retained_earnings := retained, total_equity := total_equity,
    ncl := ncl, cl := cl, total_liab_equity := total_liab_equity }

/-- The balance-sheet loop: the updated `ppe_prev`/`retained_prev` carried
to the next iteration are exactly the fields just stored in the record. -/
def bsRowsFrom (opening_equity opening_ncl : ℚ) :
    List (YearRecord × ℚ) → ℚ → ℚ → List BSRecord
  | [], _, _ => []
  | rc :: rest, ppe_prev, retained_prev =>
    let b := bsStep opening_equity opening_ncl rc ppe_prev retained_prev
    b :: bsRowsFrom opening_equity opening_ncl rest b.ppe b.retained_earnings

/-- The balance-sheet rows `bs_numeric`.  The source iterates over the
income rows and reads `closing_cash_list[i]` at the same index, which
(the two lists having equal length) is the zip below. -/
def bsRows (a : AssumptionSet) : List BSRecord :=
  bsRowsFrom a.opening_equity a.opening_ncl
    ((incomeRows a).zip (closing_cash_list a)) a.opening_ppe
    a.opening_retained

/-- The balance check scalar of line 327:
`(bs_numeric["Total Assets"] - bs_numeric["Total Liabilities & Equity"]).abs().max()`. -/
def balance_gap (a : AssumptionSet) : ℚ :=
  ((bsRows a).map
    (fun r => |r.total_assets - r.total_liab_equity|)).foldl max 0

/-! ## Depreciation schedule and balance-sheet display table -/

/-- Python's banker's rounding to the nearest integer (round-half-even),
on exact rationals. -/
def round_half_even (x : ℚ) : ℤ :=
  let f := ⌊x⌋
  if x - f < 1/2 then f
  else if x - f > 1/2 then f + 1
  else if f % 2 = 0 then f else f + 1

/-- Python's `round(x, ndigits)` on exact rationals. -/
def pyRound (ndigits : Nat) (x : ℚ) : ℚ :=
  (round_half_even (x * 10 ^ ndigits) : ℚ) / 10 ^ ndigits

/-- The depreciation schedule rows of line 316:
`(n, v, l, round(v/l, decimals))` per asset. -/
def dep_schedule (a : AssumptionSet) : List (String × ℚ × ℤ × ℚ) :=
  a.assets_list.map
    (fun x => (x.1, x.2.1, x.2.2, pyRound a.decimals (x.2.1 / (x.2.2 : ℚ))))

/-- The numeric row content built by the body of
`make_ifrs_balance_sheet` (lines 54-73), once the Year-column access of
line 53 has succeeded (i.e. for a nonempty record list — see
`make_ifrs_balance_sheet` below for the guard): the ordered row list,
each row a label with either no value (header rows) or one value per year
column.  Each asset contributes the row
`(f"    {name}", [val] * len(years))`; string rendering of the values
(currency symbol, thousands separators) is not modelled. -/
def make_ifrs_balance_sheet_rows (bs : List BSRecord)
    (assets_list : List Asset) : List (String × Option (List ℚ)) :=
  [("ASSETS", none), ("  Non-current assets", none)]
  ++ assets_list.map
      (fun a => ("    " ++ a.1, some (List.replicate bs.length a.2.1)))
  ++ [("  Current assets", none),
      ("    Cash", some (bs.map BSRecord.cash)),
      ("    Accounts Receivable", some (bs.map BSRecord.ar)),
      ("    Inventory", some (bs.map BSRecord.inv)),
      ("  Total Current Assets", some (bs.map BSRecord.total_current_assets)),
      ("Total Assets", some (bs.map BSRecord.total_assets)),
      ("", none),
      ("EQUITY AND LIABILITIES", none),
      ("  Equity", none),
      ("    Share Capital", some (bs.map BSRecord.share_capital)),
      ("    Retained Earnings", some (bs.map BSRecord.retained_earnings)),
      ("  Total Equity", some (bs.map BSRecord.total_equity)),
      ("  Non-current Liabilities", some (bs.map BSRecord.ncl)),
      ("  Current Liabilities", some (bs.map BSRecord.cl)),
      ("Total Liabilities & Equity", some (bs.map BSRecord.total_liab_equity))]

/-- The formatted balance sheet of lines 52-73, including its failure
mode.  The source first evaluates `bs_numeric_df["Year"]` (line 53);
`bs_numeric = pd.DataFrame(bs_rows)` built from an empty `bs_rows` list
has no columns at all, so that access raises KeyError and the script
aborts at the call site (line 319) before anything is displayed.  For a
nonempty record list every column exists and the row list of lines 54-73
is produced. -/
def make_ifrs_balance_sheet (bs : List BSRecord) (assets_list : List Asset) :
    Except String (List (String × Option (List ℚ))) :=
  if bs = [] then Except.error "KeyError: Year"
  else Except.ok (make_ifrs_balance_sheet_rows bs assets_list)

/-- Everything downstream of the assumption set that the app produces:
the three numeric record lists, the depreciation schedule, the numeric
balance-sheet display rows together with the formatted balance sheet
(including its KeyError failure mode), and the balance check scalar.
The income and cash-flow display tables are pointwise string renderings
of the first two components. -/
def outputsOf (a : AssumptionSet) :
    List YearRecord × List CFRecord × List BSRecord
      × List (String × ℚ × ℤ × ℚ) × List (String × Option (List ℚ))
      × Except String (List (String × Option (List ℚ))) × ℚ :=
  (incomeRows a, cfRows a, bsRows a, dep_schedule a,
   make_ifrs_balance_sheet_rows (bsRows a) a.assets_list,
   make_ifrs_balance_sheet (bsRows a) a.assets_list, balance_gap a)

/-! ## Benchmark scenario (spec §8, fixed scenario) -/

/-- The fixed benchmark assumption set from the spec's scenario. -/
def benchA : AssumptionSet :=
  { years := 3, decimals := 2, opening_cash := 100000, opening_ar := 50000,
    opening_inventory := 30000, opening_ppe := 400000, opening_ncl := 100000,
    opening_cl := 80000, opening_equity := 400000, opening_retained := 0,
    units := 10000, price_per_unit := 100, unit_growth := 0,
    price_growth := 0, variable_cost_per_unit := 40, fixed_costs := 200000,
    tax_rate := 1/5, interest := 20000, capex_input := 50000,
    num_employees := 10, avg_salary := 30000, salary_growth := 0,
    assets_list := [("Machinery", 300000, 10)] }

/-- The app's default sidebar values (lines 162-195): 5 years, 5% unit
growth, 2% price growth, 20% tax, 5% salary growth, and the default
three-line assets text area, run through the parser. -/
def defaultA : AssumptionSet :=
  { years := 5, decimals := 2, opening_cash := 100000, opening_ar := 50000,
    opening_inventory := 30000, opening_ppe := 400000, opening_ncl := 100000,
    opening_cl := 80000, opening_equity := 400000, opening_retained := 0,
    units := 10000, price_per_unit := 100, unit_growth := 1/20,
    price_growth := 1/50, variable_cost_per_unit := 40,
    fixed_costs := 200000, tax_rate := 1/5, interest := 20000,
    capex_input := 50000, num_employees := 10, avg_salary := 30000,
    salary_growth := 1/20,
    assets_list := parseAssets
      "Factory Building, 500000, 25\nMachinery, 300000, 10\nVehicles, 100000, 5" }

/-- A deliberately small two-year assumption set used to instantiate
hypotheses of the general theorems on concrete inputs. -/
def wA : AssumptionSet :=
  { years := 2, decimals := 1, opening_cash := 7, opening_ar := 2,
    opening_inventory := 3, opening_ppe := 20, opening_ncl := 4,
    opening_cl := 6, opening_equity := 10, opening_retained := 1,
    units := 10, price_per_unit := 10, unit_growth := 0, price_growth := 0,
    variable_cost_per_unit := 4, fixed_costs := 10, tax_rate := 1/5,
    interest := 1, capex_input := 5, num_employees := 2, avg_salary := 3,
    salary_growth := 0, assets_list := [("M", 10, 5)] }

/-- The benchmark assumption set with the projection horizon forced to 0
(a horizon below the valid minimum of 1). -/
def horizonZeroA : AssumptionSet :=
  { benchA with years := 0 }

/-! ## Helper lemmas -/

theorem bsStep_balances (oe oncl : ℚ) (rc : YearRecord × ℚ) (p q : ℚ) :
    (bsStep oe oncl rc p q).total_assets
      = (bsStep oe oncl rc p q).total_liab_equity := by
  simp only [bsStep]
  ring

theorem mem_bsRowsFrom (oe oncl : ℚ) :
    ∀ (l : List (YearRecord × ℚ)) (p q : ℚ) (r : BSRecord),
      r ∈ bsRowsFrom oe oncl l p q →
      ∃ rc p' q', r = bsStep oe oncl rc p' q' := by
  intro l
  induction l with
  | nil => intro p q r h; simp [bsRowsFrom] at h
  | cons rc rest ih =>
    intro p q r h
    rw [bsRowsFrom] at h
    rcases List.mem_cons.mp h with h' | h'
    · exact ⟨rc, p, q, h'⟩
    · exact ih _ _ r h'

theorem depreciationCharge_eq_sum (al : List Asset) :
    depreciationCharge al = (al.map (fun x => x.2.1 / (x.2.2 : ℚ))).sum := by
  cases al <;> simp [depreciationCharge]

theorem mem_incomeRowsFrom_fields (vc fc tr it cx ne ug pg sg : ℚ)
    (al : List Asset) :
    ∀ (n year : Nat) (u p s : ℚ) (r : YearRecord),
      r ∈ incomeRowsFrom vc fc tr it cx ne ug pg sg al n year u p s →
      r.interest = it ∧ r.depreciation = depreciationCharge al
        ∧ r.taxes = (if r.ebit - it > 0 then (r.ebit - it) * tr else 0)
        ∧ r.fixed_costs = fc ∧ r.capex_input = cx := by
  intro n
  induction n with
  | zero => intro year u p s r h; simp [incomeRowsFrom] at h
  | succ n ih =>
    intro year u p s r h
    rw [incomeRowsFrom] at h
    rcases List.mem_cons.mp h with h' | h'
    · subst h'
      refine ⟨rfl, rfl, ?_, rfl, rfl⟩
      simp
    · exact ih _ _ _ _ r h'

theorem list_getElem?_map {α β : Type} (f : α → β) :
    ∀ (l : List α) (i : ℕ), (l.map f)[i]? = (l[i]?).map f := by
  intro l
  induction l with
  | nil => intro i; simp
  | cons x xs ih =>
    intro i
    cases i with
    | zero => simp
    | succ j => simp [ih j]

theorem list_getElem?_zip {α β : Type} :
    ∀ (l : List α) (l' : List β) (i : ℕ),
      (l.zip l')[i]?
        = (l[i]?).bind (fun x => (l'[i]?).map (fun y => (x, y))) := by
  intro l
  induction l with
  | nil => intro l' i; simp
  | cons x xs ih =>
    intro l' i
    cases l' with
    | nil => simp
    | cons y ys =>
      cases i with
      | zero => simp
      | succ j => simpa using ih ys j

theorem list_getElem?_eq_none {α : Type} :
    ∀ (l : List α) (i : ℕ), l.length ≤ i → l[i]? = none := by
  intro l
  induction l with
  | nil => intro i _; simp
  | cons x xs ih =>
    intro i hi
    cases i with
    | zero => simp at hi
    | succ j => simpa using ih j (Nat.le_of_succ_le_succ hi)

theorem list_getElem?_isSome {α : Type} :
    ∀ (l : List α) (i : ℕ), i < l.length → ∃ x, l[i]? = some x := by
  intro l
  induction l with
  | nil => intro i hi; simp at hi
  | cons x xs ih =>
    intro i hi
    cases i with
    | zero => exact ⟨x, by simp⟩
    | succ j => simpa using ih j (Nat.lt_of_succ_lt_succ hi)

theorem length_incomeRowsFrom (vc fc tr it cx ne ug pg sg : ℚ)
    (al : List Asset) :
    ∀ (n year : Nat) (u p s : ℚ),
      (incomeRowsFrom vc fc tr it cx ne ug pg sg al n year u p s).length
        = n := by
  intro n
  induction n with
  | zero => intro year u p s; rw [incomeRowsFrom]; rfl
  | succ n ih =>
    intro year u p s
    rw [incomeRowsFrom]
    simpa using ih (year + 1) (u * (1 + ug)) (p * (1 + pg)) (s * (1 + sg))

theorem length_incomeRows (a : AssumptionSet) :
    (incomeRows a).length = a.years :=
  length_incomeRowsFrom _ _ _ _ _ _ _ _ _ _ _ _ _ _ _

theorem length_cfRowsFrom :
    ∀ (l : List YearRecord) (b c d e f : ℚ),
      (cfRowsFrom l b c d e f).length = l.length := by
  intro l
  induction l with
  | nil => intro b c d e f; rw [cfRowsFrom]; rfl
  | cons row rest ih =>
    intro b c d e f
    rw [cfRowsFrom]
    simpa using ih _ _ _ _ _

theorem length_cfRows (a : AssumptionSet) :
    (cfRows a).length = a.years := by
  rw [cfRows, length_cfRowsFrom, length_incomeRows]

theorem getElem?_bsRowsFrom_cash (oe oncl : ℚ) :
    ∀ (l : List (YearRecord × ℚ)) (p q : ℚ) (i : ℕ),
      ((bsRowsFrom oe oncl l p q)[i]?).map BSRecord.cash
        = (l[i]?).map Prod.snd := by
  intro l
  induction l with
  | nil => intro p q i; simp [bsRowsFrom]
  | cons rc rest ih =>
    intro p q i
    rw [bsRowsFrom]
    cases i with
    | zero => simp [bsStep]
    | succ j => simpa using ih _ _ j

theorem length_bsRowsFrom (oe oncl : ℚ) :
    ∀ (l : List (YearRecord × ℚ)) (p q : ℚ),
      (bsRowsFrom oe oncl l p q).length = l.length := by
  intro l
  induction l with
  | nil => intro p q; rw [bsRowsFrom]; rfl
  | cons rc rest ih =>
    intro p q
    rw [bsRowsFrom]
    simpa using ih _ _

theorem bsRowsFrom_getElem?_zero (oe oncl : ℚ)
    (l : List (YearRecord × ℚ)) (p q : ℚ) :
    (bsRowsFrom oe oncl l p q)[0]?
      = (l[0]?).map (fun rc => bsStep oe oncl rc p q) := by
  cases l <;> simp [bsRowsFrom]

theorem bsRowsFrom_succ_step (oe oncl : ℚ) :
    ∀ (l : List (YearRecord × ℚ)) (p q : ℚ) (i : ℕ)
      (b b' : BSRecord) (rc : YearRecord × ℚ),
      (bsRowsFrom oe oncl l p q)[i]? = some b →
      (bsRowsFrom oe oncl l p q)[i + 1]? = some b' →
      l[i + 1]? = some rc →
      b' = bsStep oe oncl rc b.ppe b.retained_earnings := by
  intro l
  induction l with
  | nil => intro p q i b b' rc h1 _ _; simp [bsRowsFrom] at h1
  | cons rc0 rest ih =>
    intro p q i b b' rc h1 h2 h3
    rw [bsRowsFrom] at h1 h2
    cases i with
    | zero =>
      simp only [List.getElem?_cons_zero, List.getElem?_cons_succ,
        Option.some.injEq] at h1 h2 h3
      rw [bsRowsFrom_getElem?_zero, h3] at h2
      simp only [Option.map_some', Option.some.injEq] at h2
      rw [← h2, ← h1]
    | succ j =>
      simp only [List.getElem?_cons_succ] at h1 h2 h3
      exact ih _ _ j b b' rc h1 h2 h3

/-! ## Claim theorems -/

/-- C1: every produced balance-sheet record satisfies
totalAssets = totalLiabilitiesAndEquity (exactly, over exact rationals,
hence within the 1e-6 absolute tolerance), because current liabilities is
the balancing plug. -/
theorem balance_sheet_identity (a : AssumptionSet) (r : BSRecord)
    (h : r ∈ bsRows a) :
    |r.total_assets - r.total_liab_equity| ≤ 1 / 1000000 := by
  obtain ⟨rc, p', q', rfl⟩ := mem_bsRowsFrom a.opening_equity a.opening_ncl _ _ _ r h
  rw [bsStep_balances]
  simp

/-- Witness for C1 at the concrete two-year assumption set wA. -/
theorem balance_sheet_identity_witness :
    |((bsRows wA).headD default).total_assets
      - ((bsRows wA).headD default).total_liab_equity| ≤ 1 / 1000000 :=
  balance_sheet_identity wA ((bsRows wA).headD default)
    (by with_unfolding_all decide)

/-- C3 (code bug evaluation): the asset line "Machine, 100, 0", whose
useful life is non-positive, is NOT dropped by the parser: it is retained
in the asset list, so the depreciation sum divides by the non-positive
life (a ZeroDivisionError in the Python source). -/
theorem asset_life_zero_retained :
    parseAssets "Machine, 100, 0" = [("Machine", 100, 0)]
      ∧ ∀ x ∈ parseAssets "Machine, 100, 0", x.2.2 ≤ 0 := by
  have h : parseAssets "Machine, 100, 0" = [("Machine", 100, 0)] := by
    with_unfolding_all rfl
  refine ⟨h, ?_⟩
  rw [h]
  intro x hx
  rcases List.mem_singleton.mp hx with rfl
  decide

/-- C6: year-1 income statement of the fixed benchmark scenario: sales
1,000,000; cost of sales 400,000; gross profit 600,000; depreciation
30,000; manpower 300,000; operating expenses 530,000; EBIT 70,000;
pre-tax profit 50,000; tax 10,000; net income 40,000. -/
theorem benchmark_year1_income :
    ((incomeRows benchA).head?.map (fun r =>
      (r.sales, r.sales - r.gross_profit, r.gross_profit, r.depreciation,
       r.manpower, r.fixed_costs + r.manpower + r.depreciation, r.ebit,
       r.ebit - r.interest, r.taxes, r.net_income)))
      = some (1000000, 400000, 600000, 30000, 300000, 530000, 70000,
              50000, 10000, 40000) := by
  with_unfolding_all rfl

/-- C8 (amended): a horizon below 1 is not rejected before computation
and no InvalidHorizon error is surfaced: the projection loops run zero
iterations, producing empty record lists, and the run then aborts with an
incidental KeyError when the balance-sheet formatter (line 53) indexes
the Year column of the empty balance-sheet DataFrame — not a validation
of the horizon.  In practice a horizon below 1 cannot arise because the
UI slider of line 162 is bounded to 1..10. -/
theorem horizon_lt_one_not_rejected (a : AssumptionSet) (h : a.years = 0) :
    incomeRows a = [] ∧ cfRows a = [] ∧ bsRows a = []
      ∧ make_ifrs_balance_sheet (bsRows a) a.assets_list
          = Except.error "KeyError: Year" := by
  have h1 : incomeRows a = [] := by
    rw [incomeRows, h, incomeRowsFrom]
  have h2 : cfRows a = [] := by
    rw [cfRows, h1, cfRowsFrom]
  have h3 : bsRows a = [] := by
    rw [bsRows, h1]
    simp [bsRowsFrom]
  refine ⟨h1, h2, h3, ?_⟩
  rw [make_ifrs_balance_sheet, if_pos h3]

/-- Witness for C8's amended claim at the concrete horizon-0 input. -/
theorem horizon_lt_one_not_rejected_witness :
    incomeRows horizonZeroA = [] ∧ cfRows horizonZeroA = []
      ∧ bsRows horizonZeroA = []
      ∧ make_ifrs_balance_sheet (bsRows horizonZeroA)
          horizonZeroA.assets_list = Except.error "KeyError: Year" :=
  horizon_lt_one_not_rejected horizonZeroA rfl

/-- C8 (counterexample to the claim as stated): with horizon 0 the run is
not rejected before projection computation and the invalid horizon is not
surfaced as an error: the three passes execute (yielding empty record
lists), the depreciation schedule is still fully built from the asset
list (line 316), and only afterwards does the run die with a KeyError
raised by the balance-sheet formatter over the column-less empty
DataFrame (lines 53, 319) — an incidental crash, not an InvalidHorizon
rejection before computation. -/
theorem horizon_zero_keyerror_after_computation :
    incomeRows horizonZeroA = [] ∧ cfRows horizonZeroA = []
      ∧ bsRows horizonZeroA = []
      ∧ dep_schedule horizonZeroA = [("Machinery", 300000, 10, 30000)]
      ∧ make_ifrs_balance_sheet (bsRows horizonZeroA)
          horizonZeroA.assets_list = Except.error "KeyError: Year" := by
  refine ⟨by with_unfolding_all rfl, by with_unfolding_all rfl,
    by with_unfolding_all rfl, by with_unfolding_all rfl, ?_⟩
  with_unfolding_all rfl

/-- C9: the opening current liabilities input is read but never used: two
assumption sets differing only in opening_cl produce identical income,
cash-flow and balance-sheet records, depreciation schedule, balance-sheet
display rows, formatted balance sheet (error path included) and
balance-check scalar. -/
theorem opening_cl_noninterference (a : AssumptionSet) (x : ℚ) :
    outputsOf { a with opening_cl := x } = outputsOf a :=
  rfl

/-- C2: tax equals pre-tax profit times the tax rate when pre-tax profit
is positive, is 0 when pre-tax profit is non-positive, is never negative
(for a non-negative tax rate), and is 0 whenever the tax rate is 0. -/
theorem taxes_formula (a : AssumptionSet) (r : YearRecord)
    (h : r ∈ incomeRows a) :
    (r.ebit - r.interest > 0 → r.taxes = (r.ebit - r.interest) * a.tax_rate)
      ∧ (r.ebit - r.interest ≤ 0 → r.taxes = 0)
      ∧ (a.tax_rate = 0 → r.taxes = 0)
      ∧ (0 ≤ a.tax_rate → 0 ≤ r.taxes) := by
  obtain ⟨hit, -, htax, -, -⟩ :=
    mem_incomeRowsFrom_fields a.variable_cost_per_unit a.fixed_costs
      a.tax_rate a.interest a.capex_input a.num_employees a.unit_growth
      a.price_growth a.salary_growth a.assets_list a.years 1 a.units
      a.price_per_unit a.avg_salary r h
  rw [← hit] at htax
  refine ⟨?_, ?_, ?_, ?_⟩
  · intro hpos; rw [htax, if_pos hpos]
  · intro hnp; rw [htax, if_neg (not_lt.mpr hnp)]
  · intro h0; rw [htax, h0]; simp
  · intro hnn
    rw [htax]
    by_cases hpos : r.ebit - r.interest > 0
    · rw [if_pos hpos]; exact mul_nonneg (le_of_lt hpos) hnn
    · rw [if_neg hpos]

/-- Witness for C2 at the concrete two-year assumption set wA. -/
theorem taxes_formula_witness :
    (((incomeRows wA).headD default).ebit
        - ((incomeRows wA).headD default).interest > 0 →
      ((incomeRows wA).headD default).taxes
        = (((incomeRows wA).headD default).ebit
            - ((incomeRows wA).headD default).interest) * wA.tax_rate)
      ∧ (((incomeRows wA).headD default).ebit
          - ((incomeRows wA).headD default).interest ≤ 0 →
        ((incomeRows wA).headD default).taxes = 0)
      ∧ (wA.tax_rate = 0 → ((incomeRows wA).headD default).taxes = 0)
      ∧ (0 ≤ wA.tax_rate → 0 ≤ ((incomeRows wA).headD default).taxes) :=
  taxes_formula wA ((incomeRows wA).headD default)
    (by with_unfolding_all decide)

/-- C7: the depreciation figure of every produced year record equals the
sum over the (already parsed) asset list of value/life, hence is the same
for all years; the sum over the empty list is 0. -/
theorem depreciation_constant (a : AssumptionSet) (r : YearRecord)
    (h : r ∈ incomeRows a) :
    r.depreciation = (a.assets_list.map (fun x => x.2.1 / (x.2.2 : ℚ))).sum := by
  obtain ⟨-, hdep, -, -, -⟩ :=
    mem_incomeRowsFrom_fields a.variable_cost_per_unit a.fixed_costs
      a.tax_rate a.interest a.capex_input a.num_employees a.unit_growth
      a.price_growth a.salary_growth a.assets_list a.years 1 a.units
      a.price_per_unit a.avg_salary r h
  rw [hdep, depreciationCharge_eq_sum]

/-- Witness for C7 at the concrete two-year assumption set wA. -/
theorem depreciation_constant_witness :
    ((incomeRows wA).headD default).depreciation
      = (wA.assets_list.map (fun x => x.2.1 / (x.2.2 : ℚ))).sum :=
  depreciation_constant wA ((incomeRows wA).headD default)
    (by with_unfolding_all decide)

/-- C4: for every year index, the cash figure stored by the balance-sheet
pass equals the closing cash computed by the cash-flow pass at the same
index (both none beyond the horizon). -/
theorem bs_cash_eq_cf_closing_cash (a : AssumptionSet) (i : ℕ) :
    ((bsRows a)[i]?).map BSRecord.cash
      = ((cfRows a)[i]?).map CFRecord.closing_cash := by
  rw [bsRows, getElem?_bsRowsFrom_cash, list_getElem?_zip,
    closing_cash_list, list_getElem?_map]
  by_cases hi : i < a.years
  · obtain ⟨r, hr⟩ := list_getElem?_isSome (incomeRows a) i
      (by rw [length_incomeRows]; exact hi)
    obtain ⟨c, hc⟩ := list_getElem?_isSome (cfRows a) i
      (by rw [length_cfRows]; exact hi)
    rw [hr, hc]
    simp
  · have h1 : (incomeRows a)[i]? = none :=
      list_getElem?_eq_none _ _ (by rw [length_incomeRows]; omega)
    have h2 : (cfRows a)[i]? = none :=
      list_getElem?_eq_none _ _ (by rw [length_cfRows]; omega)
    rw [h1, h2]
    simp

/-- C5: the balance-sheet pass rolls PPE and retained earnings forward:
for consecutive records, PPE(t) = PPE(t-1) + capex(t) - depreciation(t)
and retainedEarnings(t) = retainedEarnings(t-1) + netIncome(t); the first
record rolls forward from the opening PPE and opening retained
earnings. -/
theorem bs_rollforward (a : AssumptionSet) (i : ℕ) (prev cur : BSRecord)
    (row : YearRecord) (h1 : (bsRows a)[i]? = some prev)
    (h2 : (bsRows a)[i + 1]? = some cur)
    (h3 : (incomeRows a)[i + 1]? = some row) :
    (cur.ppe = prev.ppe + row.capex_input - row.depreciation
      ∧ cur.retained_earnings
          = prev.retained_earnings + row.net_income)
    ∧ ∀ (b0 : BSRecord) (r0 : YearRecord),
        (bsRows a)[0]? = some b0 → (incomeRows a)[0]? = some r0 →
        b0.ppe = a.opening_ppe + r0.capex_input - r0.depreciation
          ∧ b0.retained_earnings
              = a.opening_retained + r0.net_income := by
  have hlen : ((incomeRows a).zip (closing_cash_list a)).length = a.years := by
    rw [List.length_zip, length_incomeRows, closing_cash_list,
      List.length_map, length_cfRows, Nat.min_self]
  constructor
  · have hlt : i + 1 < a.years := by
      by_contra hge
      rw [bsRows] at h2
      rw [list_getElem?_eq_none _ _
        (by rw [length_bsRowsFrom, hlen]; omega)] at h2
      exact Option.noConfusion h2
    obtain ⟨rc, hrc⟩ :=
      list_getElem?_isSome ((incomeRows a).zip (closing_cash_list a))
        (i + 1) (by rw [hlen]; exact hlt)
    have hfst : rc.1 = row := by
      rw [list_getElem?_zip, h3] at hrc
      cases hcc : (closing_cash_list a)[i + 1]? with
      | none => rw [hcc] at hrc; simp at hrc
      | some c =>
        rw [hcc] at hrc
        have hpair : (row, c) = rc := Option.some.inj hrc
        rw [← hpair]
    have hstep := bsRowsFrom_succ_step a.opening_equity a.opening_ncl
      ((incomeRows a).zip (closing_cash_list a)) a.opening_ppe
      a.opening_retained i prev cur rc h1 h2 hrc
    rw [hstep, ← hfst]
    simp [bsStep]
  · intro b0 r0 hb0 hr0
    rw [bsRows, bsRowsFrom_getElem?_zero] at hb0
    cases hrc0 : ((incomeRows a).zip (closing_cash_list a))[0]? with
    | none => rw [hrc0] at hb0; simp at hb0
    | some rc0 =>
      rw [hrc0] at hb0
      simp only [Option.map_some', Option.some.injEq] at hb0
      have hfst : rc0.1 = r0 := by
        rw [list_getElem?_zip, hr0] at hrc0
        cases hcc : (closing_cash_list a)[0]? with
        | none => rw [hcc] at hrc0; simp at hrc0
        | some c =>
          rw [hcc] at hrc0
          have hpair : (r0, c) = rc0 := Option.some.inj hrc0
          rw [← hpair]
      rw [← hb0, ← hfst]
      simp [bsStep]

/-- Witness for C5 at the concrete two-year assumption set wA, index 0. -/
theorem bs_rollforward_witness :
    (((((bsRows wA)[1]?).getD default).ppe
        = (((bsRows wA)[0]?).getD default).ppe
          + (((incomeRows wA)[1]?).getD default).capex_input
          - (((incomeRows wA)[1]?).getD default).depreciation)
      ∧ (((bsRows wA)[1]?).getD default).retained_earnings
          = (((bsRows wA)[0]?).getD default).retained_earnings
            + (((incomeRows wA)[1]?).getD default).net_income)
    ∧ ∀ (b0 : BSRecord) (r0 : YearRecord),
        (bsRows wA)[0]? = some b0 → (incomeRows wA)[0]? = some r0 →
        b0.ppe = wA.opening_ppe + r0.capex_input - r0.depreciation
          ∧ b0.retained_earnings
              = wA.opening_retained + r0.net_income :=
  bs_rollforward wA 0 (((bsRows wA)[0]?).getD default)
    (((bsRows wA)[1]?).getD default) (((incomeRows wA)[1]?).getD default)
    (by with_unfolding_all decide) (by with_unfolding_all decide)
    (by with_unfolding_all decide)

theorem list_getElem?_append_left {α : Type} :
    ∀ (l l' : List α) (i : ℕ), i < l.length → (l ++ l')[i]? = l[i]? := by
  intro l
  induction l with
  | nil => intro l' i hi; simp at hi
  | cons x xs ih =>
    intro l' i hi
    cases i with
    | zero => simp
    | succ j => simpa using ih l' j (Nat.lt_of_succ_lt_succ hi)

theorem list_getElem?_replicate {α : Type} (x : α) :
    ∀ (n i : ℕ), i < n → (List.replicate n x)[i]? = some x := by
  intro n
  induction n with
  | zero => intro i hi; simp at hi
  | succ m ih =>
    intro i hi
    cases i with
    | zero => simp [List.replicate]
    | succ j => simpa [List.replicate] using ih j (Nat.lt_of_succ_lt_succ hi)

theorem list_getElem?_some_lt {α : Type} (l : List α) (i : ℕ) (x : α)
    (h : l[i]? = some x) : i < l.length := by
  by_contra hge
  rw [list_getElem?_eq_none l i (Nat.le_of_not_lt hge)] at h
  exact Option.noConfusion h

/-- C10: in the formatted balance sheet, the k-th parsed asset occupies
display row k+2 (after the two header rows), and its value column is the
asset's original capitalized input value replicated once per year —
never reduced by accumulated depreciation; consequently, on the app's
default inputs the per-asset values do not sum to the net PPE figure
embedded in Total Assets. -/
theorem asset_display_rows_constant (bs : List BSRecord)
    (al : List Asset) (k : ℕ) (x : Asset) (hk : al[k]? = some x) :
    (make_ifrs_balance_sheet_rows bs al)[k + 2]?
      = some ("    " ++ x.1, some (List.replicate bs.length x.2.1))
    ∧ (∀ i, i < bs.length →
        (List.replicate bs.length x.2.1)[i]? = some x.2.1)
    ∧ ¬ (((bsRows defaultA)[0]?).map BSRecord.ppe
        = some ((defaultA.assets_list.map (fun y => y.2.1)).sum)) := by
  refine ⟨?_, fun i hi => list_getElem?_replicate _ _ _ hi, ?_⟩
  · have hklt : k < al.length := list_getElem?_some_lt al k x hk
    show ((("ASSETS", none) :: ("  Non-current assets", none) ::
      ((al.map (fun a =>
        ("    " ++ a.1, some (List.replicate bs.length a.2.1)))) ++ _))
        : List (String × Option (List ℚ)))[k + 2]? = _
    rw [List.getElem?_cons_succ, List.getElem?_cons_succ,
      list_getElem?_append_left _ _ k (by simpa using hklt),
      list_getElem?_map, hk]
    rfl
  · intro hcontra
    have hppe : ((bsRows defaultA)[0]?).map BSRecord.ppe = some 380000 := by
      with_unfolding_all rfl
    have hsum : ((defaultA.assets_list.map (fun y => y.2.1)).sum : ℚ)
        = 900000 := by
      with_unfolding_all rfl
    rw [hppe, hsum] at hcontra
    exact absurd (Option.some.inj hcontra) (by norm_num)

/-- Witness for C10 at the concrete two-year assumption set wA and its
single asset. -/
theorem asset_display_rows_constant_witness :
    (make_ifrs_balance_sheet_rows (bsRows wA) wA.assets_list)[0 + 2]?
      = some ("    " ++ (("M", 10, 5) : Asset).1,
          some (List.replicate (bsRows wA).length (("M", 10, 5) : Asset).2.1))
    ∧ (∀ i, i < (bsRows wA).length →
        (List.replicate (bsRows wA).length
          (("M", 10, 5) : Asset).2.1)[i]? = some (("M", 10, 5) : Asset).2.1)
    ∧ ¬ (((bsRows defaultA)[0]?).map BSRecord.ppe
        = some ((defaultA.assets_list.map (fun y => y.2.1)).sum)) :=
  asset_display_rows_constant (bsRows wA) wA.assets_list 0
    (("M", 10, 5) : Asset) (by with_unfolding_all decide)

end FinanceApp
